import Mathlib

/-!
Verification of the HourlyHistoricWeather core (knmi.py, weather_estimates.py).

The tabular pandas state is embedded shallowly:
* a station-catalog row (`stations.txt` parsed by `Knmi._set_stationinfo`)
  becomes a `Station`; the `distance` column that `get_closest_stations`
  writes is an `Option ℚ` field, `none` until the column exists;
* an hourly observation row of the KNMI download becomes a `Row`; a missing
  (NaN) measurement is `none`;
* real-valued measurements are idealised as `ℚ` (binary floating point
  representation effects are outside the model);
* timestamps are hours since an arbitrary epoch (`Nat`); the calendar day of
  hour `t` is `t / 24` and its clock hour `t % 24`, mirroring the
  `datetime` arithmetic of the source; the `YYYYMMDD` integer of a row is
  represented by that day index (the mapping is order-isomorphic);
* `raise`d exceptions become an `Except` error channel.
-/

/-- One row of the station catalog: columns `STN, LON(east), LAT(north),
ALT(m), NAME` of `stations.txt`, plus the `distance` column that
`Knmi.get_closest_stations` adds (absent = `none`). -/
structure Station where
  stn : Nat
  lon : ℚ
  lat : ℚ
  alt : ℚ
  name : String
  distance : Option ℚ := none
  deriving Repr, DecidableEq

/-- One hourly observation row of the KNMI data, after the unit conversion of
`Knmi._set_knmi_data` (columns `STN`, `YYYYMMDD` as a day index, `HH`, and the
three required variables `T`, `FF`, `Q`; a NaN value is `none`). -/
structure Row where
  stn : Nat
  day : Nat
  hh : Nat
  T : Option ℚ
  FF : Option ℚ
  Q : Option ℚ
  deriving Repr, DecidableEq

/-- The state held by the `Knmi` class after construction: `self._stations`
and `self._data`. -/
structure Knmi where
  stations : List Station
  data : List Row
  deriving Repr, DecidableEq

/-- The identifier passed to `WeatherEstimates._get_value`: one of the
column names `'T'`, `'FF'`, `'Q'`. -/
inductive VarId where
  | T
  | FF
  | Q
  deriving Repr, DecidableEq

/-- Column selection `df_for_fit[identifier]`. -/
def getVar : VarId → Row → Option ℚ
  | .T, r => r.T
  | .FF, r => r.FF
  | .Q, r => r.Q

/-- The exceptions `_get_value` can raise inside the per-hour loop:
`noDataForHour day hh` models `Exception(f"No values are available for
date: {used_date}")` (where `used_date` determines exactly the lookup key
`(day, hh)`), and `underdeterminedFit day hh n` models the error raised by
`scipy.optimize.curve_fit` when the `n` data points are fewer than the 3
free parameters of `f_linear`. -/
inductive EstimateError where
  | noDataForHour (day hh : Nat)
  | underdeterminedFit (day hh : Nat) (n : Nat)
  deriving Repr, DecidableEq

/-- One output row of the dataframe `_get_value` returns: columns
`index`, `value`, `datetime` (hours since the epoch) and `timestamp`
(epoch seconds, `datetime.timestamp()`). -/
structure EstimateSample where
  idx : Nat
  value : ℚ
  datetime : Nat
  timestamp : Nat
  deriving Repr, DecidableEq

deriving instance DecidableEq for Except

/-- The exception `WeatherEstimates.__init__` raises:
`Exception("Start date is later than end date")`. -/
inductive ConfigError where
  | startAfterEnd
  deriving Repr, DecidableEq

/-- The state of a constructed `WeatherEstimates` object (`self.start_date`,
`self.end_date`, `self.knmi`; `self.data` is `knmi.data`). -/
structure WeatherEstimates where
  startDate : Nat
  endDate : Nat
  knmi : Knmi
  deriving Repr, DecidableEq

/-! ## Completeness filtering (`Knmi._remove_nan_values`) -/

/-- A row has a missing value in one of the required columns `T`, `FF`, `Q`
(the `[['T', 'FF', 'Q']]` projection followed by `isnull`). -/
def rowHasNaN (r : Row) : Bool :=
  r.T.isNone || r.FF.isNone || r.Q.isNone

/-- `self._data.loc[self._data['STN'] == stn][['T','FF','Q']].isnull().values.any()`. -/
def stationHasNaN (data : List Row) (n : Nat) : Bool :=
  (data.filter (fun r => r.stn == n)).any rowHasNaN

/-- Drop station `n` from the catalog and all of its observation rows from
the dataset (`self._stations.drop(stn)`, `self._data.drop(data)`). -/
def dropStationKnmi (k : Knmi) (n : Nat) : Knmi :=
  { stations := k.stations.filter (fun s => s.stn != n),
    data := k.data.filter (fun r => r.stn != n) }

/-- The body of the `for stn, row in self._stations.iterrows()` loop of
`_remove_nan_values`, acting on the current (possibly already reduced)
state. -/
def rnvStep (acc : Knmi) (s : Station) : Knmi :=
  if stationHasNaN acc.data s.stn then dropStationKnmi acc s.stn else acc

/-- `Knmi._remove_nan_values`: the loop iterates over the catalog as it was
when the loop started, mutating the shared state in place; the fold makes the
threading of that state explicit. -/
def removeNanValues (k : Knmi) : Knmi :=
  k.stations.foldl rnvStep k

/-! ## Station ranking (`Knmi.get_closest_stations`)

`_calculate_distance` is real-valued (haversine over `math.sin`, `cos`,
`atan2`, `sqrt`); transcendental floating-point arithmetic has no faithful
executable rational embedding, so the distance computation is a parameter
`dist lat1 lon1 lat2 lon2` of the ranking model, applied exactly where the
source applies `self._calculate_distance(lat, lon, row['LAT(north)'],
row['LON(east)'])`. Every ranking theorem below holds for an arbitrary
`dist`, hence in particular for the haversine. -/

/-- The value of the `distance` column (`none` only before the column is
written). -/
def distVal (s : Station) : ℚ :=
  s.distance.getD 0

/-- `dataframe['distance'] = dataframe.apply(lambda row:
self._calculate_distance(lat, lon, row['LAT(north)'], row['LON(east)']),
axis=1)`: annotate every catalog row with its distance to the query point. -/
def annotate (dist : ℚ → ℚ → ℚ → ℚ → ℚ) (lon lat : ℚ) (l : List Station) : List Station :=
  l.map (fun s => { s with distance := some (dist lat lon s.lat s.lon) })

/-- The total order used by the executable model of
`dataframe.sort_values('distance')`: ascending distance, with the original
row position as a deterministic tie key.  pandas' default quicksort kind
leaves the relative order of equal distances unspecified, so this key is
only one admissible choice; no theorem below reads the tie order off this
function — the claims rely only on the documented contract
(`sortedByDistanceSpec`) and on the sort being a deterministic function of
its input. -/
def rankRel (a b : Nat × Station) : Prop :=
  distVal a.2 < distVal b.2 ∨ (distVal a.2 = distVal b.2 ∧ a.1 ≤ b.1)

instance : DecidableRel rankRel := fun a b => by
  unfold rankRel
  infer_instance

instance : IsTotal (Nat × Station) rankRel := by
  constructor
  intro a b
  unfold rankRel
  rcases lt_trichotomy (distVal a.2) (distVal b.2) with h | h | h
  · exact Or.inl (Or.inl h)
  · rcases Nat.le_total a.1 b.1 with h2 | h2
    · exact Or.inl (Or.inr ⟨h, h2⟩)
    · exact Or.inr (Or.inr ⟨h.symm, h2⟩)
  · exact Or.inr (Or.inl h)

instance : IsTrans (Nat × Station) rankRel := by
  constructor
  intro a b c hab hbc
  unfold rankRel at *
  rcases hab with h1 | ⟨h1, h1i⟩
  · rcases hbc with h2 | ⟨h2, _⟩
    · exact Or.inl (h1.trans h2)
    · exact Or.inl (h2 ▸ h1)
  · rcases hbc with h2 | ⟨h2, h2i⟩
    · exact Or.inl (h1 ▸ h2)
    · exact Or.inr ⟨h1.trans h2, h1i.trans h2i⟩

/-- The catalog rows tagged with their original position and sorted by
`rankRel`: the executable model of the `sort_values('distance')` call. -/
def rankedOf (l : List Station) : List (Nat × Station) :=
  (l.enum).insertionSort rankRel

/-- `dataframe.sort_values('distance', inplace=True)`: the catalog rows in
ascending-distance order (with the admissible-but-unspecified tie order
fixed as in `rankRel`). -/
def sortByDistance (l : List Station) : List Station :=
  (rankedOf l).map Prod.snd

/-- What `sort_values('distance', kind='quicksort')` documents about its
output: a permutation of the input rows, ascending in the distance column.
The relative order of rows with equal distance is left unspecified by pandas
for the default quicksort kind (only 'mergesort'/'stable' are stable). -/
def sortedByDistanceSpec (l out : List Station) : Prop :=
  out.Perm l ∧ (out.map distVal).Pairwise (· ≤ ·)

/-- `Knmi.get_closest_stations(lon, lat, N)`. The source mutates
`self._stations` in place (it writes the `distance` column and sorts the
frame) and returns `dataframe.head(N)`; the model returns both the value
`head(N)` and the catalog state left behind. -/
def getClosestStations (dist : ℚ → ℚ → ℚ → ℚ → ℚ) (k : Knmi) (lon lat : ℚ)
    (N : Nat) : List Station × Knmi :=
  ((sortByDistance (annotate dist lon lat k.stations)).take N,
    { k with stations := sortByDistance (annotate dist lon lat k.stations) })

/-! ## Per-hour estimation (`WeatherEstimates._get_value`) -/

/-- The date/hour normalisation at the top of the per-hour loop: clock hour 0
is stored as hour 24 of the previous calendar day (`used_date = start_date -
timedelta(hours=1); hour = 24`), otherwise the day and clock hour are used
as they are. Result: `(day index of used_date, hour)`. -/
def usedKey (t : Nat) : Nat × Nat :=
  if t % 24 = 0 then ((t - 1) / 24, 24) else (t / 24, t % 24)

/-- `self.data[(self.data['HH'] == hour) & (self.data['YYYYMMDD'] ==
int(date_string))]`. -/
def rowsAt (data : List Row) (day hh : Nat) : List Row :=
  data.filter (fun r => (r.hh == hh) && (r.day == day))

/-- `nearest_stations.join(df_datehour, how='inner')`: for each row of the
left frame (in its order) the matching observation rows (in their order),
matched on the station id index. -/
def innerJoin (ns : List Station) (rows : List Row) : List (Station × Row) :=
  ns.flatMap (fun s => (rows.filter (fun r => r.stn == s.stn)).map (fun r => (s, r)))

/-- The data extracted for the fit at hour `t`: `x_val =
df_for_fit[['LON(east)', 'LAT(north)']].values` paired with `y_val =
df_for_fit[identifier].values`. The rows that reach a fit are NaN-free for
the catalog stations after `_remove_nan_values` (the completeness
invariant proved below), so `getD 0` only replaces values the source never
reads as NaN on that path. -/
def ptsAt (nearest : List Station) (data : List Row) (v : VarId) (t : Nat) :
    List ((ℚ × ℚ) × ℚ) :=
  (innerJoin nearest (rowsAt data (usedKey t).1 (usedKey t).2)).map
    (fun p => ((p.1.lon, p.1.lat), (getVar v p.2).getD 0))

/-- Determinant of a 3×3 matrix given row by row. -/
def det3 (a b c d e f g h i : ℚ) : ℚ :=
  a * (e * i - f * h) - b * (d * i - f * g) + c * (d * h - e * g)

/-- `scipy.optimize.curve_fit(f_linear, x_val, y_val)` for the linear model:
the least-squares solution of `value ≈ a·lon + b·lat + c`, obtained from the
normal equations by Cramer's rule. The singular (collinear) case, where the
iterative scipy solver returns an unspecified vector, is modelled by a fixed
fallback; no theorem below depends on that case. -/
def lsqFit (pts : List ((ℚ × ℚ) × ℚ)) : ℚ × ℚ × ℚ :=
  let n : ℚ := pts.length
  let sx := (pts.map (fun p => p.1.1)).sum
  let sy := (pts.map (fun p => p.1.2)).sum
  let sxx := (pts.map (fun p => p.1.1 * p.1.1)).sum
  let sxy := (pts.map (fun p => p.1.1 * p.1.2)).sum
  let syy := (pts.map (fun p => p.1.2 * p.1.2)).sum
  let sv := (pts.map (fun p => p.2)).sum
  let sxv := (pts.map (fun p => p.1.1 * p.2)).sum
  let syv := (pts.map (fun p => p.1.2 * p.2)).sum
  let det := det3 sxx sxy sx sxy syy sy sx sy n
  if det = 0 then (0, 0, 0)
  else
    (det3 sxv sxy sx syv syy sy sv sy n / det,
      det3 sxx sxv sx sxy syv sy sx sv n / det,
      det3 sxx sxy sxv sxy syy syv sx sy sv / det)

/-- `f_linear(x, a, b, c) = a * x[:,0] + b * x[:,1] + c` evaluated at a single
point. -/
def fLinear (abc : ℚ × ℚ × ℚ) (x y : ℚ) : ℚ :=
  abc.1 * x + abc.2.1 * y + abc.2.2

/-- The raw fitted value at the query point for hour `t`:
`f_linear(np.array([[lon, lat]]), popt[0], popt[1], popt[2])[0]`, before the
clamp. -/
def rawFitValue (nearest : List Station) (data : List Row) (v : VarId)
    (lon lat : ℚ) (t : Nat) : ℚ :=
  fLinear (lsqFit (ptsAt nearest data v t)) lon lat

/-- One iteration of the per-hour loop of `_get_value` at hour `t`: select
the rows, fail if none (`if y_val.size == 0: raise`), fail if the fit is
underdetermined (fewer data points than the 3 parameters, raised inside
`curve_fit`), otherwise fit, evaluate, and clamp negatives to 0
(`if value < 0: value = 0`). -/
def stepEstimate (nearest : List Station) (data : List Row) (v : VarId)
    (lon lat : ℚ) (t : Nat) : Except EstimateError ℚ :=
  if (ptsAt nearest data v t).length = 0 then
    .error (.noDataForHour (usedKey t).1 (usedKey t).2)
  else if (ptsAt nearest data v t).length < 3 then
    .error (.underdeterminedFit (usedKey t).1 (usedKey t).2
      (ptsAt nearest data v t).length)
  else
    .ok (if rawFitValue nearest data v lon lat t < 0 then 0
      else rawFitValue nearest data v lon lat t)

/-- The `while start_date <= end_date` loop, with the iteration count
`endT + 1 - start` made explicit as structural fuel: each pass appends
`[value, start_date]` to `lst` and advances one hour; the first raised
exception aborts the whole computation. -/
def getValueLoop (step : Nat → Except EstimateError ℚ) :
    Nat → Nat → Except EstimateError (List (ℚ × Nat))
  | 0, _ => .ok []
  | n + 1, t =>
    match step t with
    | .error e => .error e
    | .ok v =>
      match getValueLoop step n (t + 1) with
      | .error e => .error e
      | .ok rest => .ok ((v, t) :: rest)

/-- Turn the accumulated `lst` into the output dataframe rows: the dataframe
index becomes the 0-based `index` column, and `timestamp` is the epoch-second
form of `datetime` (3600 seconds per modelled hour). -/
def toSamplesFrom (i : Nat) : List (ℚ × Nat) → List EstimateSample
  | [] => []
  | (v, t) :: rest => ⟨i, v, t, t * 3600⟩ :: toSamplesFrom (i + 1) rest

/-- `WeatherEstimates._get_value(lon, lat, identifier)` over the window
`[start, endT]`: resolve the 3 nearest stations once, run the per-hour loop,
and convert the result list to the output dataframe. -/
def getValue (dist : ℚ → ℚ → ℚ → ℚ → ℚ) (k : Knmi) (lon lat : ℚ) (v : VarId)
    (start endT : Nat) : Except EstimateError (List EstimateSample) :=
  match getValueLoop
      (stepEstimate (getClosestStations dist k lon lat 3).1 k.data v lon lat)
      (endT + 1 - start) start with
  | .error e => .error e
  | .ok l => .ok (toSamplesFrom 0 l)

/-- `WeatherEstimates.get_temperature`. -/
def getTemperature (dist : ℚ → ℚ → ℚ → ℚ → ℚ) (k : Knmi) (lon lat : ℚ)
    (start endT : Nat) : Except EstimateError (List EstimateSample) :=
  getValue dist k lon lat .T start endT

/-- `WeatherEstimates.get_wind_speed`. -/
def getWindSpeed (dist : ℚ → ℚ → ℚ → ℚ → ℚ) (k : Knmi) (lon lat : ℚ)
    (start endT : Nat) : Except EstimateError (List EstimateSample) :=
  getValue dist k lon lat .FF start endT

/-- Round to the nearest integer, halves to the even neighbour: the rounding
of Python's built-in `round` and of `pandas.Series.round`. -/
def roundHalfEven (x : ℚ) : ℤ :=
  if x - ⌊x⌋ < 1 / 2 then ⌊x⌋
  else if 1 / 2 < x - ⌊x⌋ then ⌊x⌋ + 1
  else if ⌊x⌋ % 2 = 0 then ⌊x⌋ else ⌊x⌋ + 1

/-- `round(·, 5)`: round to 5 decimal places. -/
def round5 (x : ℚ) : ℚ :=
  (roundHalfEven (x * 100000) : ℚ) / 100000

/-- `WeatherEstimates.get_horizontal_irradiation`: the `'Q'` series with
`dataframe['value'] = round(dataframe['value'], 5)` applied. -/
def getHorizontalIrradiation (dist : ℚ → ℚ → ℚ → ℚ → ℚ) (k : Knmi)
    (lon lat : ℚ) (start endT : Nat) :
    Except EstimateError (List EstimateSample) :=
  match getValue dist k lon lat .Q start endT with
  | .error e => .error e
  | .ok samples => .ok (samples.map (fun s => { s with value := round5 s.value }))

/-- `WeatherEstimates.__init__(start_date, end_date=None)`: default the end
to one day after the start, reject a start later than the end before the
`Knmi` collaborator ever runs, then build the `Knmi` state (ingested raw
tables are parameters; `Knmi.__init__` ends by running
`_remove_nan_values`). -/
def initWeatherEstimates (rawStations : List Station) (rawData : List Row)
    (startDate : Nat) (endDateOpt : Option Nat) :
    Except ConfigError WeatherEstimates :=
  let endDate := endDateOpt.getD (startDate + 24)
  if startDate > endDate then .error .startAfterEnd
  else .ok ⟨startDate, endDate, removeNanValues ⟨rawStations, rawData⟩⟩

/-! ## Concrete fixtures

Small concrete catalogs and datasets used to instantiate the theorems below
on explicit inputs.  `wDist` is one concrete choice of the distance
parameter (the ranking by station latitude); the theorems themselves hold
for every `dist`. -/

/-- A concrete distance function: the distance of a station is its latitude
coordinate. -/
def wDist : ℚ → ℚ → ℚ → ℚ → ℚ := fun _ _ la _ => la

def wStation1 : Station := ⟨1, 0, 0, 0, "A", none⟩

def wStation2 : Station := ⟨2, 1, 0, 0, "B", none⟩

def wStation3 : Station := ⟨3, 0, 1, 0, "C", none⟩

def wRow1 : Row := ⟨1, 0, 1, some 10, some 5, some (123456789 / 10000000)⟩

def wRow2 : Row := ⟨2, 0, 1, some 14, some 5, some (123456789 / 10000000)⟩

def wRow3 : Row := ⟨3, 0, 1, some 12, some 5, some (123456789 / 10000000)⟩

/-- Three stations, each with one complete observation row at day 0, hour 1. -/
def wKnmi : Knmi := ⟨[wStation1, wStation2, wStation3], [wRow1, wRow2, wRow3]⟩

/-- The nearest-station ranking of `wKnmi` for the query point (0, 0) under
`wDist`, written out. -/
def wNearest : List Station :=
  [⟨1, 0, 0, 0, "A", some 0⟩, ⟨2, 1, 0, 0, "B", some 0⟩, ⟨3, 0, 1, 0, "C", some 1⟩]

/-- Two stations with rows only at day 0, hour 1 (so hour 2 of day 0 has no
data, and hour 1 has only 2 fit points). -/
def wKnmi2 : Knmi := ⟨[wStation1, wStation2], [wRow1, wRow2]⟩

/-- A catalog whose rows are not in ascending-distance order for the query
point (0, 0) under `wDist`. -/
def wKnmi7 : Knmi := ⟨[wStation3, wStation1], []⟩

/-- One station and no observation rows at all. -/
def wKnmiE : Knmi := ⟨[wStation1], []⟩

/-- The state no longer contains station id `n` anywhere: not in the catalog
and not in the observation rows. -/
def droppedAll (c : Knmi) (n : Nat) : Prop :=
  (∀ t ∈ c.stations, t.stn ≠ n) ∧ (∀ r ∈ c.data, r.stn ≠ n)

/-! ## Lemmas about the completeness filtering -/

theorem rnvStep_stations_sub {acc : Knmi} {s x : Station}
    (hx : x ∈ (rnvStep acc s).stations) : x ∈ acc.stations := by
  unfold rnvStep at hx
  split at hx
  · exact List.mem_of_mem_filter hx
  · exact hx

theorem rnvStep_data_sub {acc : Knmi} {s : Station} {r : Row}
    (hr : r ∈ (rnvStep acc s).data) : r ∈ acc.data := by
  unfold rnvStep at hr
  split at hr
  · exact List.mem_of_mem_filter hr
  · exact hr

theorem foldl_rnv_stations_sub :
    ∀ (ss : List Station) (acc : Knmi) {x : Station},
      x ∈ (List.foldl rnvStep acc ss).stations → x ∈ acc.stations := by
  intro ss
  induction ss with
  | nil => intro acc x hx; exact hx
  | cons a tl ih =>
    intro acc x hx
    rw [List.foldl_cons] at hx
    exact rnvStep_stations_sub (ih (rnvStep acc a) hx)

theorem foldl_rnv_data_sub :
    ∀ (ss : List Station) (acc : Knmi) {r : Row},
      r ∈ (List.foldl rnvStep acc ss).data → r ∈ acc.data := by
  intro ss
  induction ss with
  | nil => intro acc r hr; exact hr
  | cons a tl ih =>
    intro acc r hr
    rw [List.foldl_cons] at hr
    exact rnvStep_data_sub (ih (rnvStep acc a) hr)

theorem stationHasNaN_false_clean {data : List Row} {n : Nat}
    (h : stationHasNaN data n = false) :
    ∀ r ∈ data, r.stn = n → rowHasNaN r = false := by
  intro r hr hstn
  unfold stationHasNaN at h
  rw [List.any_eq_false] at h
  exact Bool.eq_false_iff.mpr (h r (List.mem_filter.mpr ⟨hr, by simp [hstn]⟩))

theorem rnv_clean_aux :
    ∀ (ss : List Station) (acc : Knmi) (s : Station), s ∈ ss →
      s ∈ (List.foldl rnvStep acc ss).stations →
      ∀ r ∈ (List.foldl rnvStep acc ss).data, r.stn = s.stn → rowHasNaN r = false := by
  intro ss
  induction ss with
  | nil =>
    intro acc s hss
    simp at hss
  | cons a tl ih =>
    intro acc s hss hmem r hr hstn
    rw [List.foldl_cons] at hmem hr
    rcases List.mem_cons.mp hss with rfl | htl
    · by_cases hb : stationHasNaN acc.data s.stn = true
      · exfalso
        have h2 : s ∈ (rnvStep acc s).stations := foldl_rnv_stations_sub tl _ hmem
        unfold rnvStep at h2
        rw [if_pos hb] at h2
        have := (List.mem_filter.mp h2).2
        simp at this
      · have hstep : rnvStep acc s = acc := by
          unfold rnvStep
          exact if_neg hb
        rw [hstep] at hr
        exact stationHasNaN_false_clean (Bool.eq_false_iff.mpr hb) r
          (foldl_rnv_data_sub tl acc hr) hstn
    · exact ih (rnvStep acc a) s htl hmem r hr hstn

theorem droppedAll_step {acc : Knmi} {n : Nat} (a : Station)
    (h : droppedAll acc n) : droppedAll (rnvStep acc a) n :=
  ⟨fun t ht => h.1 t (rnvStep_stations_sub ht),
    fun r hr => h.2 r (rnvStep_data_sub hr)⟩

theorem droppedAll_foldl :
    ∀ (ss : List Station) (acc : Knmi) {n : Nat},
      droppedAll acc n → droppedAll (List.foldl rnvStep acc ss) n := by
  intro ss
  induction ss with
  | nil => intro acc n h; exact h
  | cons a tl ih =>
    intro acc n h
    rw [List.foldl_cons]
    exact ih (rnvStep acc a) (droppedAll_step a h)

theorem droppedAll_dropStation (acc : Knmi) (n : Nat) :
    droppedAll (dropStationKnmi acc n) n := by
  constructor
  · intro t ht
    have := (List.mem_filter.mp ht).2
    simpa using this
  · intro r hr
    have := (List.mem_filter.mp hr).2
    simpa using this

theorem stationHasNaN_filter_ne {data : List Row} {m n : Nat} (hmn : m ≠ n) :
    stationHasNaN (data.filter (fun r => r.stn != m)) n = stationHasNaN data n := by
  unfold stationHasNaN
  rw [List.filter_filter]
  congr 1
  apply List.filter_congr
  intro r _
  by_cases h : r.stn = n
  · simp [h, Ne.symm hmn]
  · simp [h]

theorem rnv_drop_aux :
    ∀ (ss : List Station) (acc : Knmi) (n : Nat), (∃ s ∈ ss, s.stn = n) →
      (stationHasNaN acc.data n = true ∨ droppedAll acc n) →
      droppedAll (List.foldl rnvStep acc ss) n := by
  intro ss
  induction ss with
  | nil =>
    rintro acc n ⟨s, hs, _⟩ _
    simp at hs
  | cons a tl ih =>
    rintro acc n ⟨s, hs, hstn⟩ hinv
    rw [List.foldl_cons]
    rcases List.mem_cons.mp hs with rfl | htl
    · have hstep : droppedAll (rnvStep acc s) n := by
        rcases hinv with hnan | hdrop
        · unfold rnvStep
          have hcond : stationHasNaN acc.data s.stn = true := by
            rw [hstn]
            exact hnan
          rw [if_pos hcond, hstn]
          exact droppedAll_dropStation acc n
        · exact droppedAll_step s hdrop
      exact droppedAll_foldl tl _ hstep
    · apply ih (rnvStep acc a) n ⟨s, htl, hstn⟩
      rcases hinv with hnan | hdrop
      · by_cases han : a.stn = n
        · right
          unfold rnvStep
          have hcond : stationHasNaN acc.data a.stn = true := by
            rw [han]
            exact hnan
          rw [if_pos hcond, han]
          exact droppedAll_dropStation acc n
        · by_cases hb : stationHasNaN acc.data a.stn = true
          · left
            unfold rnvStep
            rw [if_pos hb]
            show stationHasNaN (acc.data.filter (fun r => r.stn != a.stn)) n = true
            rw [stationHasNaN_filter_ne han]
            exact hnan
          · left
            unfold rnvStep
            rw [if_neg hb]
            exact hnan
      · right
        exact droppedAll_step a hdrop

/-- C3: after the one-time completeness-filtering pass, every retained
station has a non-missing value for all of `T`, `FF`, `Q` in every one of
its observation rows; and a station with any missing required value is
removed from the catalog entirely, together with all of its observation
rows, not merely for the affected hours. -/
theorem completeness_invariant (k : Knmi) :
    (∀ s ∈ (removeNanValues k).stations, ∀ r ∈ (removeNanValues k).data,
      r.stn = s.stn → rowHasNaN r = false)
    ∧ (∀ s ∈ k.stations, stationHasNaN k.data s.stn = true →
      (∀ u ∈ (removeNanValues k).stations, u.stn ≠ s.stn)
      ∧ (∀ r ∈ (removeNanValues k).data, r.stn ≠ s.stn)) := by
  constructor
  · intro s hs r hr hstn
    have hs0 : s ∈ k.stations := foldl_rnv_stations_sub k.stations k hs
    exact rnv_clean_aux k.stations k s hs0 hs r hr hstn
  · intro s hs hnan
    exact rnv_drop_aux k.stations k s.stn ⟨s, hs, rfl⟩ (Or.inl hnan)

/-! ## Lemmas about the per-hour estimation loop -/

theorem getValueLoop_ok_map_snd {step : Nat → Except EstimateError ℚ} :
    ∀ (n t : Nat) {l : List (ℚ × Nat)}, getValueLoop step n t = .ok l →
      l.map Prod.snd = List.range' t n := by
  intro n
  induction n with
  | zero =>
    intro t l h
    unfold getValueLoop at h
    injection h with h
    subst h
    rfl
  | succ n ih =>
    intro t l h
    unfold getValueLoop at h
    cases hs : step t with
    | error e =>
      rw [hs] at h
      cases h
    | ok v =>
      rw [hs] at h
      cases hrec : getValueLoop step n (t + 1) with
      | error e =>
        rw [hrec] at h
        cases h
      | ok rest =>
        rw [hrec] at h
        injection h with h
        subst h
        rw [List.range'_succ]
        simp [ih (t + 1) hrec]

theorem getValueLoop_ok_step {step : Nat → Except EstimateError ℚ} :
    ∀ (n t : Nat) {l : List (ℚ × Nat)}, getValueLoop step n t = .ok l →
      ∀ p ∈ l, step p.2 = .ok p.1 := by
  intro n
  induction n with
  | zero =>
    intro t l h
    unfold getValueLoop at h
    injection h with h
    subst h
    intro p hp
    simp at hp
  | succ n ih =>
    intro t l h
    unfold getValueLoop at h
    cases hs : step t with
    | error e =>
      rw [hs] at h
      cases h
    | ok v =>
      rw [hs] at h
      cases hrec : getValueLoop step n (t + 1) with
      | error e =>
        rw [hrec] at h
        cases h
      | ok rest =>
        rw [hrec] at h
        injection h with h
        subst h
        intro p hp
        rcases List.mem_cons.mp hp with rfl | hp2
        · exact hs
        · exact ih (t + 1) hrec p hp2

theorem getValueLoop_all_ok {step : Nat → Except EstimateError ℚ} :
    ∀ (n t : Nat) {l : List (ℚ × Nat)}, getValueLoop step n t = .ok l →
      ∀ u, t ≤ u → u < t + n → ∃ v, step u = .ok v := by
  intro n
  induction n with
  | zero =>
    intro t l _ u h1 h2
    omega
  | succ n ih =>
    intro t l h u h1 h2
    unfold getValueLoop at h
    cases hs : step t with
    | error e =>
      rw [hs] at h
      cases h
    | ok v =>
      rw [hs] at h
      cases hrec : getValueLoop step n (t + 1) with
      | error e =>
        rw [hrec] at h
        cases h
      | ok rest =>
        by_cases hut : u = t
        · exact ⟨v, hut ▸ hs⟩
        · exact ih (t + 1) hrec u (by omega) (by omega)

theorem getValueLoop_first_error {step : Nat → Except EstimateError ℚ} :
    ∀ (n t h : Nat) (e : EstimateError), t ≤ h → h < t + n →
      (∀ u, t ≤ u → u < h → ∃ v, step u = .ok v) → step h = .error e →
      getValueLoop step n t = .error e := by
  intro n
  induction n with
  | zero =>
    intro t h e h1 h2
    omega
  | succ n ih =>
    intro t h e h1 h2 hprev herr
    by_cases hth : h = t
    · subst hth
      unfold getValueLoop
      rw [herr]
    · have ht : t < h := lt_of_le_of_ne h1 (Ne.symm hth)
      obtain ⟨v, hv⟩ := hprev t le_rfl ht
      unfold getValueLoop
      rw [hv, ih (t + 1) h e (by omega) (by omega)
        (fun u hu1 hu2 => hprev u (by omega) hu2) herr]

theorem toSamplesFrom_length :
    ∀ (i : Nat) (l : List (ℚ × Nat)), (toSamplesFrom i l).length = l.length := by
  intro i l
  induction l generalizing i with
  | nil => rfl
  | cons p rest ih =>
    cases p
    simp [toSamplesFrom, ih]

theorem toSamplesFrom_map_datetime :
    ∀ (i : Nat) (l : List (ℚ × Nat)),
      (toSamplesFrom i l).map (fun s => s.datetime) = l.map Prod.snd := by
  intro i l
  induction l generalizing i with
  | nil => rfl
  | cons p rest ih =>
    cases p
    simp [toSamplesFrom, ih]

theorem toSamplesFrom_map_idx :
    ∀ (i : Nat) (l : List (ℚ × Nat)),
      (toSamplesFrom i l).map (fun s => s.idx) = List.range' i l.length := by
  intro i l
  induction l generalizing i with
  | nil => rfl
  | cons p rest ih =>
    cases p
    rw [List.length_cons, List.range'_succ]
    simp [toSamplesFrom, ih]

theorem toSamplesFrom_mem :
    ∀ {i : Nat} {l : List (ℚ × Nat)} {s : EstimateSample},
      s ∈ toSamplesFrom i l →
      (s.value, s.datetime) ∈ l ∧ s.timestamp = s.datetime * 3600 := by
  intro i l
  induction l generalizing i with
  | nil =>
    intro s hs
    simp [toSamplesFrom] at hs
  | cons p rest ih =>
    intro s hs
    cases p with
    | mk v t =>
      rcases List.mem_cons.mp hs with rfl | hs2
      · exact ⟨List.mem_cons_self _ _, rfl⟩
      · obtain ⟨h1, h2⟩ := ih hs2
        exact ⟨List.mem_cons_of_mem _ h1, h2⟩

/-- C1: for a query with `start ≤ end` that returns a series, the series has
exactly one sample per hour of the closed range `[start, end]`: its length is
the number of hours, its datetimes are `start, start+1, …, end` (stepped by
exactly one hour), its `index` column is the 0-based running index, and its
timestamps are strictly increasing. -/
theorem estimate_series_shape (dist : ℚ → ℚ → ℚ → ℚ → ℚ) (k : Knmi)
    (lon lat : ℚ) (v : VarId) (start endT : Nat)
    (samples : List EstimateSample) (hse : start ≤ endT)
    (hok : getValue dist k lon lat v start endT = .ok samples) :
    samples.length = endT + 1 - start
    ∧ samples.map (fun s => s.datetime) = List.range' start (endT + 1 - start)
    ∧ samples.map (fun s => s.idx) = List.range (endT + 1 - start)
    ∧ samples.Pairwise (fun a b => a.timestamp < b.timestamp) := by
  unfold getValue at hok
  cases hl : getValueLoop
      (stepEstimate (getClosestStations dist k lon lat 3).1 k.data v lon lat)
      (endT + 1 - start) start with
  | error e =>
    rw [hl] at hok
    cases hok
  | ok l =>
    rw [hl] at hok
    injection hok with hok
    subst hok
    have hsnd := getValueLoop_ok_map_snd _ _ hl
    have hlen : l.length = endT + 1 - start := by
      have h2 := congrArg List.length hsnd
      simpa using h2
    have hdtm : (toSamplesFrom 0 l).map (fun s => s.datetime) =
        List.range' start (endT + 1 - start) := by
      rw [toSamplesFrom_map_datetime, hsnd]
    refine ⟨?_, hdtm, ?_, ?_⟩
    · rw [toSamplesFrom_length, hlen]
    · rw [toSamplesFrom_map_idx, hlen, List.range_eq_range']
    · have h1 : List.Pairwise (· < ·)
          ((toSamplesFrom 0 l).map (fun s => s.datetime)) := by
        rw [hdtm]
        exact List.pairwise_lt_range' _ _
      have hdt := List.pairwise_map.mp h1
      refine hdt.imp_of_mem ?_
      intro a b ha hb hab
      have hta := (toSamplesFrom_mem ha).2
      have htb := (toSamplesFrom_mem hb).2
      rw [hta, htb]
      exact (Nat.mul_lt_mul_right (by omega)).mpr hab

theorem stepEstimate_ok_val {nearest : List Station} {data : List Row}
    {v : VarId} {lon lat : ℚ} {t : Nat} {val : ℚ}
    (h : stepEstimate nearest data v lon lat t = .ok val) :
    val = max (rawFitValue nearest data v lon lat t) 0 := by
  unfold stepEstimate at h
  split at h
  · cases h
  · split at h
    · cases h
    · injection h with h
      subst h
      by_cases hr : rawFitValue nearest data v lon lat t < 0
      · rw [if_pos hr, max_eq_right hr.le]
      · rw [if_neg hr, max_eq_left (not_lt.mp hr)]

theorem stepEstimate_empty {nearest : List Station} {data : List Row}
    {v : VarId} {lon lat : ℚ} {t : Nat}
    (he : ptsAt nearest data v t = []) :
    stepEstimate nearest data v lon lat t =
      .error (.noDataForHour (usedKey t).1 (usedKey t).2) := by
  unfold stepEstimate
  rw [if_pos (by rw [he]; rfl)]

theorem stepEstimate_lt3_not_ok {nearest : List Station} {data : List Row}
    {v : VarId} {lon lat : ℚ} {t : Nat}
    (h3 : (ptsAt nearest data v t).length < 3) :
    ∀ val, stepEstimate nearest data v lon lat t ≠ .ok val := by
  intro val h
  unfold stepEstimate at h
  split at h
  · cases h
  · cases h

theorem getValue_ok_loop {dist : ℚ → ℚ → ℚ → ℚ → ℚ} {k : Knmi} {lon lat : ℚ}
    {v : VarId} {start endT : Nat} {samples : List EstimateSample}
    (hok : getValue dist k lon lat v start endT = .ok samples) :
    ∃ l, getValueLoop
        (stepEstimate (getClosestStations dist k lon lat 3).1 k.data v lon lat)
        (endT + 1 - start) start = .ok l ∧ samples = toSamplesFrom 0 l := by
  unfold getValue at hok
  cases hl : getValueLoop
      (stepEstimate (getClosestStations dist k lon lat 3).1 k.data v lon lat)
      (endT + 1 - start) start with
  | error e =>
    rw [hl] at hok
    cases hok
  | ok l =>
    rw [hl] at hok
    injection hok with hok
    exact ⟨l, rfl, hok.symm⟩

theorem getValue_ok_val {dist : ℚ → ℚ → ℚ → ℚ → ℚ} {k : Knmi} {lon lat : ℚ}
    {v : VarId} {start endT : Nat} {samples : List EstimateSample}
    (hok : getValue dist k lon lat v start endT = .ok samples) :
    ∀ s ∈ samples, s.value =
      max (rawFitValue (getClosestStations dist k lon lat 3).1 k.data v lon lat
        s.datetime) 0 := by
  obtain ⟨l, hl, rfl⟩ := getValue_ok_loop hok
  intro s hs
  obtain ⟨hmem, _⟩ := toSamplesFrom_mem hs
  exact stepEstimate_ok_val (getValueLoop_ok_step _ _ hl (s.value, s.datetime) hmem)

/-- C4: every value a query emits is the clamp `max(v, 0)` of the fitted
plane evaluated at the query point — negative raw estimates become 0,
non-negative ones pass through unchanged, for every variable (`T`, `FF`,
`Q` alike). -/
theorem estimate_clamping (dist : ℚ → ℚ → ℚ → ℚ → ℚ) (k : Knmi) (lon lat : ℚ)
    (v : VarId) (start endT : Nat) (samples : List EstimateSample)
    (hok : getValue dist k lon lat v start endT = .ok samples) :
    ∀ s ∈ samples, s.value =
      max (rawFitValue (getClosestStations dist k lon lat 3).1 k.data v lon lat
        s.datetime) 0 :=
  getValue_ok_val hok

/-- C5: an hour of the query window whose fit has fewer than 3 usable data
points makes the whole query fail — it never returns a series; and when
there is at least one point (so the zero-rows check does not fire first),
the failure is the underdetermined-fit error for that hour. -/
theorem underdetermined_fit_fails (dist : ℚ → ℚ → ℚ → ℚ → ℚ) (k : Knmi)
    (lon lat : ℚ) (v : VarId) (start endT h : Nat)
    (h1 : start ≤ h) (h2 : h ≤ endT)
    (h3 : (ptsAt (getClosestStations dist k lon lat 3).1 k.data v h).length < 3) :
    (∀ l, getValue dist k lon lat v start endT ≠ .ok l)
    ∧ (1 ≤ (ptsAt (getClosestStations dist k lon lat 3).1 k.data v h).length →
      stepEstimate (getClosestStations dist k lon lat 3).1 k.data v lon lat h =
        .error (.underdeterminedFit (usedKey h).1 (usedKey h).2
          (ptsAt (getClosestStations dist k lon lat 3).1 k.data v h).length)) := by
  constructor
  · intro l hok
    obtain ⟨l0, hl, _⟩ := getValue_ok_loop hok
    obtain ⟨val, hval⟩ := getValueLoop_all_ok _ _ hl h h1 (by omega)
    exact stepEstimate_lt3_not_ok h3 val hval
  · intro hge
    unfold stepEstimate
    rw [if_neg (by omega), if_pos h3]

/-- C2 (amended): if some hour of the window matches zero observation rows
among the selected nearest stations, and every earlier hour of the window
still produced a value (so the zero-row hour is the first failing one), the
whole query returns the no-data error naming that hour's date/hour key — and
returns no samples at all (the result is an error, not a partial series). -/
theorem no_data_hour_aborts (dist : ℚ → ℚ → ℚ → ℚ → ℚ) (k : Knmi)
    (lon lat : ℚ) (v : VarId) (start endT h : Nat)
    (h1 : start ≤ h) (h2 : h ≤ endT)
    (hempty : ptsAt (getClosestStations dist k lon lat 3).1 k.data v h = [])
    (hprev : ∀ u, start ≤ u → u < h →
      ∃ val, stepEstimate (getClosestStations dist k lon lat 3).1 k.data v lon lat u
        = .ok val) :
    getValue dist k lon lat v start endT =
      .error (.noDataForHour (usedKey h).1 (usedKey h).2) := by
  unfold getValue
  rw [getValueLoop_first_error (endT + 1 - start) start h _ h1 (by omega) hprev
    (stepEstimate_empty hempty)]

/-- C9: an irradiation query emits each value as the clamped planar-fit
estimate rounded to 5 decimal places, while temperature and wind-speed
queries emit the clamped estimate unrounded. -/
theorem irradiation_rounding (dist : ℚ → ℚ → ℚ → ℚ → ℚ) (k : Knmi)
    (lon lat : ℚ) (start endT : Nat) (qs ts ws : List EstimateSample)
    (hQ : getHorizontalIrradiation dist k lon lat start endT = .ok qs)
    (hT : getTemperature dist k lon lat start endT = .ok ts)
    (hW : getWindSpeed dist k lon lat start endT = .ok ws) :
    (∀ s ∈ qs, s.value = round5 (max (rawFitValue
      (getClosestStations dist k lon lat 3).1 k.data .Q lon lat s.datetime) 0))
    ∧ (∀ s ∈ ts, s.value = max (rawFitValue
      (getClosestStations dist k lon lat 3).1 k.data .T lon lat s.datetime) 0)
    ∧ (∀ s ∈ ws, s.value = max (rawFitValue
      (getClosestStations dist k lon lat 3).1 k.data .FF lon lat s.datetime) 0) := by
  refine ⟨?_, getValue_ok_val hT, getValue_ok_val hW⟩
  unfold getHorizontalIrradiation at hQ
  cases hq0 : getValue dist k lon lat .Q start endT with
  | error e =>
    rw [hq0] at hQ
    cases hQ
  | ok samples =>
    rw [hq0] at hQ
    injection hQ with hQ
    subst hQ
    intro s hs
    rw [List.mem_map] at hs
    obtain ⟨s0, hs0, rfl⟩ := hs
    have hv := getValue_ok_val hq0 s0 hs0
    show round5 s0.value = round5 (max (rawFitValue
      (getClosestStations dist k lon lat 3).1 k.data .Q lon lat s0.datetime) 0)
    rw [hv]

/-- C10: constructing `WeatherEstimates` without an end date sets the window
end to exactly one day after the start, so the start-only hourly series over
that window, when it succeeds, has 25 samples (`start` to `start + 24`
inclusive). -/
theorem default_end_one_day (rs : List Station) (rd : List Row) (start : Nat)
    (we : WeatherEstimates)
    (hok : initWeatherEstimates rs rd start none = .ok we) :
    we.startDate = start ∧ we.endDate = start + 24
    ∧ ∀ (dist : ℚ → ℚ → ℚ → ℚ → ℚ) (lon lat : ℚ) (v : VarId)
        (l : List EstimateSample),
        getValue dist we.knmi lon lat v we.startDate we.endDate = .ok l →
        l.length = 25 := by
  unfold initWeatherEstimates at hok
  simp only [Option.getD_none] at hok
  rw [if_neg (by omega)] at hok
  injection hok with hok
  subst hok
  refine ⟨rfl, rfl, ?_⟩
  intro dist lon lat v l hl
  obtain ⟨l0, hloop, rfl⟩ := getValue_ok_loop hl
  rw [toSamplesFrom_length]
  have hsnd := getValueLoop_ok_map_snd _ _ hloop
  have hlen := congrArg List.length hsnd
  simp at hlen
  omega

/-! ## Lemmas about the station ranking -/

theorem rankedOf_pairwise (l : List Station) :
    (rankedOf l).Pairwise (fun a b => distVal a.2 < distVal b.2 ∨
      (distVal a.2 = distVal b.2 ∧ a.1 < b.1)) := by
  have hsorted : (rankedOf l).Pairwise rankRel :=
    List.sorted_insertionSort rankRel l.enum
  have hperm : ((rankedOf l).map Prod.fst).Perm (l.enum.map Prod.fst) :=
    (List.perm_insertionSort rankRel l.enum).map Prod.fst
  have hnodup : ((rankedOf l).map Prod.fst).Nodup := by
    rw [hperm.nodup_iff, List.enum_map_fst]
    exact List.nodup_range _
  have hne : (rankedOf l).Pairwise (fun a b => a.1 ≠ b.1) :=
    List.pairwise_map.mp hnodup
  refine (hsorted.and hne).imp ?_
  rintro a b ⟨hr, hne2⟩
  rcases hr with h | ⟨h, hle⟩
  · exact Or.inl h
  · exact Or.inr ⟨h, lt_of_le_of_ne hle hne2⟩

/-- C6 (amended): for the same catalog state and query point the ranking is
a deterministic function of the catalog, so the `N = k1` result is the
length-`k1` initial segment of the `N = k2` result when `k1 < k2`, and the
returned sequence is ascending in distance; the full ranking the query
leaves in the catalog satisfies the documented sort contract (a permutation
of the annotated catalog rows, ascending in the distance column).  The
tie-break part of the original claim — equal-distance stations in original
catalog order — is not guaranteed by the code: `sort_values` is called with
the default quicksort kind, which pandas documents as not stable, so the
contract does not determine the order of equal distances (the C6
counterexample below exhibits a contract-satisfying output that breaks it). -/
theorem nearest_k_monotone (dist : ℚ → ℚ → ℚ → ℚ → ℚ) (k : Knmi)
    (lon lat : ℚ) (k1 k2 : Nat) (hk1 : 1 ≤ k1) (hlt : k1 < k2) :
    (getClosestStations dist k lon lat k1).1 =
      ((getClosestStations dist k lon lat k2).1).take k1
    ∧ ((getClosestStations dist k lon lat k2).1.map distVal).Pairwise (· ≤ ·)
    ∧ sortedByDistanceSpec (annotate dist lon lat k.stations)
        ((getClosestStations dist k lon lat k2).2.stations) := by
  have hple : (rankedOf (annotate dist lon lat k.stations)).Pairwise
      (fun a b => distVal a.2 ≤ distVal b.2) := by
    refine (rankedOf_pairwise _).imp ?_
    rintro a b (h | ⟨h, _⟩)
    · exact h.le
    · exact h.le
  refine ⟨?_, ?_, ?_⟩
  · show (sortByDistance (annotate dist lon lat k.stations)).take k1 =
      ((sortByDistance (annotate dist lon lat k.stations)).take k2).take k1
    rw [List.take_take]
    congr 1
    omega
  · show (((sortByDistance (annotate dist lon lat k.stations)).take k2).map
      distVal).Pairwise (· ≤ ·)
    unfold sortByDistance
    rw [← List.map_take, List.map_map]
    exact List.pairwise_map.mpr (hple.sublist (List.take_sublist _ _))
  · unfold sortedByDistanceSpec
    constructor
    · show (sortByDistance (annotate dist lon lat k.stations)).Perm _
      unfold sortByDistance rankedOf
      have hperm := (List.perm_insertionSort rankRel
        (annotate dist lon lat k.stations).enum).map Prod.snd
      rw [List.enum_map_snd] at hperm
      exact hperm
    · show ((sortByDistance (annotate dist lon lat k.stations)).map
        distVal).Pairwise (· ≤ ·)
      unfold sortByDistance
      rw [List.map_map]
      exact List.pairwise_map.mpr hple

/-- C7 (amended): `get_closest_stations` is not side-effect free — it leaves
the catalog with the `distance` column written and the rows re-sorted in
ascending-distance order.  No station is added or removed (the new catalog
is a permutation of the old rows annotated with their distances), and the
observation dataset is untouched. -/
theorem catalog_mutation (dist : ℚ → ℚ → ℚ → ℚ → ℚ) (k : Knmi)
    (lon lat : ℚ) (N : Nat) :
    (getClosestStations dist k lon lat N).2.data = k.data
    ∧ (getClosestStations dist k lon lat N).2.stations =
        sortByDistance (annotate dist lon lat k.stations)
    ∧ (getClosestStations dist k lon lat N).2.stations.Perm
        (annotate dist lon lat k.stations) := by
  refine ⟨rfl, rfl, ?_⟩
  show (sortByDistance (annotate dist lon lat k.stations)).Perm _
  unfold sortByDistance rankedOf
  have hperm :=
    (List.perm_insertionSort rankRel (annotate dist lon lat k.stations).enum).map
      Prod.snd
  rw [List.enum_map_snd] at hperm
  exact hperm

/-- C8 (amended): a start date after the end date is rejected with the
configuration error before any estimation work begins — the rejection does
not depend on the ingested data at all; the neighbour count, however, is not
validated: `N = 0` (< 1) is accepted and the ranking query returns an empty
sequence instead of raising an error. -/
theorem config_rejection (rs rs2 : List Station) (rd rd2 : List Row)
    (start ed : Nat) (dist : ℚ → ℚ → ℚ → ℚ → ℚ) (k : Knmi) (lon lat : ℚ)
    (h : ed < start) :
    initWeatherEstimates rs rd start (some ed) = .error .startAfterEnd
    ∧ initWeatherEstimates rs2 rd2 start (some ed) =
        initWeatherEstimates rs rd start (some ed)
    ∧ (getClosestStations dist k lon lat 0).1 = [] := by
  have h1 : ∀ (a : List Station) (b : List Row),
      initWeatherEstimates a b start (some ed) = .error .startAfterEnd := by
    intro a b
    unfold initWeatherEstimates
    simp only [Option.getD_some]
    rw [if_pos (by omega)]
  refine ⟨h1 rs rd, by rw [h1, h1], rfl⟩

/-! ## Evaluations of the model on the concrete fixtures -/

theorem wnear : (getClosestStations wDist wKnmi 0 0 3).1 = wNearest := by
  decide

theorem wptsT : ptsAt wNearest wKnmi.data .T 1 =
    [((0, 0), 10), ((1, 0), 14), ((0, 1), 12)] := by
  decide

theorem wrawT : rawFitValue wNearest wKnmi.data .T 0 0 1 = 10 := by
  unfold rawFitValue
  rw [wptsT]
  norm_num [lsqFit, det3, fLinear]

theorem wstepT : stepEstimate wNearest wKnmi.data .T 0 0 1 = .ok 10 := by
  unfold stepEstimate
  rw [wptsT, wrawT]
  norm_num

theorem wptsFF : ptsAt wNearest wKnmi.data .FF 1 =
    [((0, 0), 5), ((1, 0), 5), ((0, 1), 5)] := by
  decide

theorem wrawFF : rawFitValue wNearest wKnmi.data .FF 0 0 1 = 5 := by
  unfold rawFitValue
  rw [wptsFF]
  norm_num [lsqFit, det3, fLinear]

theorem wstepFF : stepEstimate wNearest wKnmi.data .FF 0 0 1 = .ok 5 := by
  unfold stepEstimate
  rw [wptsFF, wrawFF]
  norm_num

theorem wptsQ : ptsAt wNearest wKnmi.data .Q 1 =
    [((0, 0), 123456789 / 10000000), ((1, 0), 123456789 / 10000000),
      ((0, 1), 123456789 / 10000000)] := by
  simp [ptsAt, innerJoin, rowsAt, usedKey, getVar, wKnmi, wNearest,
    wRow1, wRow2, wRow3]

theorem wrawQ : rawFitValue wNearest wKnmi.data .Q 0 0 1 = 123456789 / 10000000 := by
  unfold rawFitValue
  rw [wptsQ]
  norm_num [lsqFit, det3, fLinear]

theorem wstepQ : stepEstimate wNearest wKnmi.data .Q 0 0 1 =
    .ok (123456789 / 10000000) := by
  unfold stepEstimate
  rw [wptsQ, wrawQ]
  norm_num

theorem wval_aux {v : VarId} {val : ℚ}
    (hstep : stepEstimate wNearest wKnmi.data v 0 0 1 = .ok val) :
    getValue wDist wKnmi 0 0 v 1 1 = .ok [⟨0, val, 1, 3600⟩] := by
  have hloop : getValueLoop (stepEstimate wNearest wKnmi.data v 0 0) 1 1 =
      .ok [(val, 1)] := by
    simp only [getValueLoop, hstep]
  unfold getValue
  rw [wnear]
  have e1 : (1 + 1 - 1 : Nat) = 1 := rfl
  rw [e1, hloop]
  rfl

theorem wvalT : getValue wDist wKnmi 0 0 .T 1 1 = .ok [⟨0, 10, 1, 3600⟩] :=
  wval_aux wstepT

theorem wvalFF : getValue wDist wKnmi 0 0 .FF 1 1 = .ok [⟨0, 5, 1, 3600⟩] :=
  wval_aux wstepFF

theorem wvalQ : getValue wDist wKnmi 0 0 .Q 1 1 =
    .ok [⟨0, 123456789 / 10000000, 1, 3600⟩] :=
  wval_aux wstepQ

/-- The concrete rounding scenario of the spec: a raw fit result of
12.3456789 is emitted as 12.34568 after the 5-decimal rounding. -/
theorem round5_spec_scenario : round5 (123456789 / 10000000) = 1234568 / 100000 := by
  norm_num [round5, roundHalfEven]

theorem whirr : getHorizontalIrradiation wDist wKnmi 0 0 1 1 =
    .ok [⟨0, 1234568 / 100000, 1, 3600⟩] := by
  unfold getHorizontalIrradiation
  rw [wvalQ]
  show Except.ok ([(⟨0, (123456789 : ℚ) / 10000000, 1, 3600⟩ : EstimateSample)].map
    (fun s => { s with value := round5 s.value })) = _
  simp only [List.map]
  rw [round5_spec_scenario]

/-! ## Witnesses and counterexamples -/

/-- C1 witness: the one-hour query over `[1, 1]` on the concrete fixture
yields a series of length `1 + 1 - 1`. -/
theorem estimate_series_shape_witness :
    ([(⟨0, 10, 1, 3600⟩ : EstimateSample)]).length = 1 + 1 - 1 :=
  (estimate_series_shape wDist wKnmi 0 0 .T 1 1 [⟨0, 10, 1, 3600⟩] le_rfl wvalT).1

/-- C2 counterexample to the claim as stated: on `wKnmi2`, hour 2 of the
window `[1, 2]` matches zero observation rows, yet the query fails with the
underdetermined-fit error of the earlier hour 1 (which has only 2 matching
rows), not with the no-data error naming hour 2. -/
theorem no_data_hour_counterexample :
    ptsAt (getClosestStations wDist wKnmi2 0 0 3).1 wKnmi2.data .T 2 = []
    ∧ getValue wDist wKnmi2 0 0 .T 1 2 = .error (.underdeterminedFit 0 1 2)
    ∧ getValue wDist wKnmi2 0 0 .T 1 2 ≠ .error (.noDataForHour 0 2) := by
  refine ⟨by decide, by decide, by decide⟩

/-- C2 witness: on a catalog with no observation rows at all, the one-hour
query over `[1, 1]` fails with the no-data error naming day 0, hour 1. -/
theorem no_data_hour_aborts_witness :
    getValue wDist wKnmiE 0 0 .T 1 1 =
      .error (.noDataForHour (usedKey 1).1 (usedKey 1).2) :=
  no_data_hour_aborts wDist wKnmiE 0 0 .T 1 1 1 le_rfl le_rfl (by decide)
    (fun u h1 h2 => absurd h2 (by omega))

/-- C4 witness: the emitted wind-speed value 5 of the concrete query equals
the clamp of its raw fitted value. -/
theorem estimate_clamping_witness :
    (⟨0, 5, 1, 3600⟩ : EstimateSample).value =
      max (rawFitValue (getClosestStations wDist wKnmi 0 0 3).1 wKnmi.data .FF 0 0
        (⟨0, 5, 1, 3600⟩ : EstimateSample).datetime) 0 :=
  estimate_clamping wDist wKnmi 0 0 .FF 1 1 [⟨0, 5, 1, 3600⟩] wvalFF
    ⟨0, 5, 1, 3600⟩ (List.mem_singleton_self _)

/-- C5 witness: at hour 1 of `wKnmi2` only 2 data points are available, and
the per-hour estimation fails with the underdetermined-fit error. -/
theorem underdetermined_fit_fails_witness :
    stepEstimate (getClosestStations wDist wKnmi2 0 0 3).1 wKnmi2.data .T 0 0 1 =
      .error (.underdeterminedFit (usedKey 1).1 (usedKey 1).2
        (ptsAt (getClosestStations wDist wKnmi2 0 0 3).1 wKnmi2.data .T 1).length) :=
  (underdetermined_fit_fails wDist wKnmi2 0 0 .T 1 1 1 le_rfl le_rfl
    (by decide)).2 (by decide)

/-- C6 counterexample to the tie-break conjunct of the claim as stated: for
the query point (0, 0) the two stations of the concrete catalog are tied at
distance 0, and the sequence with the tie in the *reversed* order satisfies
everything the code's sort guarantees (`sortedByDistanceSpec`: a permutation
of the annotated rows, ascending distances) while its station ids are not in
original catalog order; its distance column is identical to the catalog
order's, so the deviation is purely in the order of equal distances, which
the claim asserts and the code leaves unspecified. -/
theorem nearest_k_monotone_counterexample :
    sortedByDistanceSpec (annotate wDist 0 0 [wStation1, wStation2])
      [⟨2, 1, 0, 0, "B", some 0⟩, ⟨1, 0, 0, 0, "A", some 0⟩]
    ∧ ([⟨2, 1, 0, 0, "B", some 0⟩, ⟨1, 0, 0, 0, "A", some 0⟩] :
        List Station).map Station.stn ≠
      (annotate wDist 0 0 [wStation1, wStation2]).map Station.stn
    ∧ ([⟨2, 1, 0, 0, "B", some 0⟩, ⟨1, 0, 0, 0, "A", some 0⟩] :
        List Station).map distVal =
      (annotate wDist 0 0 [wStation1, wStation2]).map distVal := by
  have hann : annotate wDist 0 0 [wStation1, wStation2] =
      [⟨1, 0, 0, 0, "A", some 0⟩, ⟨2, 1, 0, 0, "B", some 0⟩] := by
    decide
  refine ⟨?_, ?_, ?_⟩
  · unfold sortedByDistanceSpec
    constructor
    · rw [hann]
      exact List.Perm.swap _ _ _
    · decide
  · rw [hann]
    decide
  · rw [hann]
    decide

/-- C6 witness: on the concrete fixture, the 1-nearest ranking is the first
element of the 2-nearest ranking. -/
theorem nearest_k_monotone_witness :
    (getClosestStations wDist wKnmi 0 0 1).1 =
      ((getClosestStations wDist wKnmi 0 0 2).1).take 1 :=
  (nearest_k_monotone wDist wKnmi 0 0 1 2 le_rfl (by omega)).1

/-- C7 counterexample to the claim as stated: the ranking query mutates the
catalog — afterwards the catalog differs from its previous state (the
distance column is written), and its row order has changed. -/
theorem catalog_mutation_counterexample :
    (getClosestStations wDist wKnmi7 0 0 3).2 ≠ wKnmi7
    ∧ (getClosestStations wDist wKnmi7 0 0 3).2.stations.map Station.stn ≠
        wKnmi7.stations.map Station.stn := by
  refine ⟨by decide, by decide⟩

/-- C8 counterexample to the claim as stated: a ranking query with `N = 0`
(< 1) is not rejected — it completes, returning an empty sequence, with the
catalog fully ranked. -/
theorem config_rejection_counterexample :
    (getClosestStations wDist wKnmi 0 0 0).1 = []
    ∧ (getClosestStations wDist wKnmi 0 0 0).2.stations.length =
        wKnmi.stations.length := by
  refine ⟨rfl, by decide⟩

/-- C8 witness: start 1 after end 0 is rejected with the configuration
error. -/
theorem config_rejection_witness :
    initWeatherEstimates [] [] 1 (some 0) = .error .startAfterEnd :=
  (config_rejection [] [] [] [] 1 0 wDist wKnmi 0 0 (by omega)).1

/-- C9 witness: the concrete irradiation query emits 12.34568, the
5-decimal rounding of the clamp of its raw fitted value 12.3456789. -/
theorem irradiation_rounding_witness :
    (⟨0, 1234568 / 100000, 1, 3600⟩ : EstimateSample).value =
      round5 (max (rawFitValue (getClosestStations wDist wKnmi 0 0 3).1
        wKnmi.data .Q 0 0
        (⟨0, 1234568 / 100000, 1, 3600⟩ : EstimateSample).datetime) 0) :=
  (irradiation_rounding wDist wKnmi 0 0 1 1 [⟨0, 1234568 / 100000, 1, 3600⟩]
    [⟨0, 10, 1, 3600⟩] [⟨0, 5, 1, 3600⟩] whirr wvalT wvalFF).1
    ⟨0, 1234568 / 100000, 1, 3600⟩ (List.mem_singleton_self _)

/-- C10 witness: construction with start 5 and no end date yields the window
end `5 + 24`. -/
theorem default_end_one_day_witness :
    (⟨5, 29, ⟨[], []⟩⟩ : WeatherEstimates).endDate = 5 + 24 :=
  (default_end_one_day [] [] 5 ⟨5, 29, ⟨[], []⟩⟩ rfl).2.1
